import Mathlib

/-!
Shallow embedding of the metrics-collection subsystem of the GitHub
dashboard repository: the in-memory request cache, the collector's
validation, the pagination helper of the API client, the scheduler's
retry loop, and the two database backends behind the adapter.

Every definition is translated from the corresponding source file
(`src/unnamed/part_003` MemoryCache, `src/lib/database.ts` MetricsDatabase
and MetricsCollector, `src/lib/github-api.ts` fetchAllPages,
`src/unnamed/part_004` DataCollectionScheduler, `src/lib/simple-cache.ts`
NeonDatabase, `src/lib/database-adapter.ts` DatabaseAdapter).
Wall-clock reads (`Date.now()`, `new Date()`) are passed in as explicit
parameters; JavaScript number semantics relevant to validation (NaN,
infinities, falsy zero) are modelled by the `JSNum` type.
-/

/-! ### JavaScript number values

The collector's fields are JS numbers: they may be finite, `NaN`, or an
infinity.  Comparisons follow IEEE semantics (every comparison with NaN
is false). -/

inductive JSNum where
  | fin (v : Int)
  | posInf
  | negInf
  | nan
deriving Repr, DecidableEq

/-- JS `isNaN(v)` for a number value. -/
def JSNum.isNaNb : JSNum → Bool
  | .nan => true
  | _ => false

/-- JS `v < 0` (IEEE: false when `v` is NaN). -/
def JSNum.ltZero : JSNum → Bool
  | .fin v => v < 0
  | .negInf => true
  | .posInf => false
  | .nan => false

/-- JS `a > b` (IEEE: false when either side is NaN). -/
def JSNum.gt : JSNum → JSNum → Bool
  | .nan, _ => false
  | _, .nan => false
  | .posInf, .posInf => false
  | .posInf, _ => true
  | .negInf, _ => false
  | .fin _, .posInf => false
  | .fin _, .negInf => true
  | .fin a, .fin b => b < a

/-- JS `a - b` on number values. -/
def JSNum.sub : JSNum → JSNum → JSNum
  | .nan, _ => .nan
  | _, .nan => .nan
  | .posInf, .posInf => .nan
  | .posInf, _ => .posInf
  | .negInf, .negInf => .nan
  | .negInf, _ => .negInf
  | .fin _, .posInf => .negInf
  | .fin _, .negInf => .posInf
  | .fin a, .fin b => .fin (a - b)

/-- JS truthiness of a number value: `0` and `NaN` are falsy. -/
def JSNum.truthy : JSNum → Bool
  | .fin v => v ≠ 0
  | .nan => false
  | _ => true

/-! ### MemoryCache (src/unnamed/part_003)

The in-memory cache is a string-keyed `Map`; it is modelled as an
association list in which `set` replaces any earlier binding for the key.
`Date.now()` is an explicit `now : Int` parameter (epoch milliseconds). -/

/-- One cache entry: payload, insertion time (ms), time-to-live (ms). -/
structure CacheEntry (α : Type) where
  data : α
  timestamp : Int
  ttl : Int
deriving Repr, DecidableEq

/-- The cache contents: a string-keyed map modelled as an association list. -/
abbrev MemoryCache (α : Type) : Type := List (String × CacheEntry α)

/-- The empty cache. -/
def mcEmpty (α : Type) : MemoryCache α := []

/-- `MemoryCache.set(key, data, ttlMinutes)`: stores the entry with
`timestamp = Date.now()` and `ttl = ttlMinutes * 60 * 1000`, overwriting
any existing entry for the key. -/
def mcSet {α : Type} (c : MemoryCache α) (key : String) (d : α)
    (ttlMinutes : Int) (now : Int) : MemoryCache α :=
  (key, ⟨d, now, ttlMinutes * 60 * 1000⟩) :: c.filter (fun p => p.1 ≠ key)

/-- `MemoryCache.get(key)`: returns `null` when the key is absent; when
present and `Date.now() - entry.timestamp > entry.ttl` deletes the entry
and returns `null`; otherwise returns the stored data.  The result pairs
the returned value with the cache contents after the call. -/
def mcGet {α : Type} (c : MemoryCache α) (key : String) (now : Int) :
    Option α × MemoryCache α :=
  match c.find? (fun p => p.1 = key) with
  | none => (none, c)
  | some (_, e) =>
    if now - e.timestamp > e.ttl then
      (none, c.filter (fun p => p.1 ≠ key))
    else
      (some e.data, c)

/-- Claim C7, counterexample: the claim states that `get` returns the
stored value only while the elapsed time is strictly less than the TTL in
milliseconds, and otherwise returns null.  At an elapsed time exactly
equal to the TTL (`set` at 0 with ttlMinutes = 1, `get` at 60000 ms) the
elapsed time is not strictly less than the TTL, yet the code's check
`now - entry.timestamp > entry.ttl` is false, so `get` still returns the
stored value instead of null. -/
theorem c7_ttl_boundary_counterexample :
    ¬ ((60000 : Int) - 0 < 1 * 60 * 1000) ∧
    (mcGet (mcSet (mcEmpty Nat) "k" 7 1 0) "k" 60000).1 = some 7 := by
  exact ⟨by decide, rfl⟩

/-- Claim C7 (amended): after `set(key, d, ttlMinutes)` at time `now`, a
`get(key)` at time `later` returns the stored value when the elapsed time
is at most `ttlMinutes * 60 * 1000` (also when it equals the bound
exactly), and when the elapsed time strictly exceeds the bound it removes
the entry and returns null; in particular `set(key, v, 1)` followed by a
61-second delay makes `get(key)` return null. -/
theorem c7_cache_ttl_expiry (α : Type) (c : MemoryCache α) (key : String)
    (d : α) (ttlMinutes now later : Int) :
    (mcGet (mcSet c key d ttlMinutes now) key later).1 =
      (if later - now > ttlMinutes * 60 * 1000 then none else some d) ∧
    (mcGet (mcSet c key d ttlMinutes now) key later).2.find?
        (fun p => p.1 = key) =
      (if later - now > ttlMinutes * 60 * 1000 then none
       else some (key, ⟨d, now, ttlMinutes * 60 * 1000⟩)) := by
  unfold mcGet mcSet
  simp only [List.find?_cons, eq_self_iff_true, decide_True]
  constructor
  · split <;> simp
  · split
    · rw [List.find?_eq_none]
      intro x hx
      rw [List.mem_filter] at hx
      simpa using hx.2
    · simp [List.find?_cons]

/-! ### fetchAllPages (src/lib/github-api.ts)

`fetchAllPages` repeatedly calls `fetchGitHub` with `page = 1, 2, ...`
while `page <= maxPages`, breaking when the response is not an array
(modelled `none`) or is empty, appending the page otherwise, and breaking
after appending when the page is shorter than `perPage`.  The loop is
modelled with fuel `maxPages - page + 1`; the model also counts the
number of fetch calls performed. -/

/-- The `while (page <= maxPages)` loop of `fetchAllPages`, started at
page number `page` with `fuel = maxPages - page + 1` iterations left.
Returns the concatenated results together with the number of fetch calls
made. -/
def fetchPagesGo {α : Type} (fetch1 : Nat → Option (List α)) (perPage : Nat) :
    Nat → Nat → List α × Nat
  | _, 0 => ([], 0)
  | page, fuel + 1 =>
    match fetch1 page with
    | none => ([], 1)
    | some data =>
      if data.length = 0 then ([], 1)
      else if data.length < perPage then (data, 1)
      else
        ((data ++ (fetchPagesGo fetch1 perPage (page + 1) fuel).1),
          (fetchPagesGo fetch1 perPage (page + 1) fuel).2 + 1)

/-- `fetchAllPages(endpoint, options, maxPages)`: the concatenated items. -/
def fetchAllPages {α : Type} (fetch1 : Nat → Option (List α))
    (perPage maxPages : Nat) : List α :=
  (fetchPagesGo fetch1 perPage 1 maxPages).1

/-- Number of fetch calls performed by `fetchAllPages`. -/
def fetchAllPagesCalls {α : Type} (fetch1 : Nat → Option (List α))
    (perPage maxPages : Nat) : Nat :=
  (fetchPagesGo fetch1 perPage 1 maxPages).2

/-- Concatenation of `pages page, pages (page+1), ...` for `fuel` pages. -/
def concatFrom {α : Type} (pages : Nat → List α) : Nat → Nat → List α
  | _, 0 => []
  | page, fuel + 1 => pages page ++ concatFrom pages (page + 1) fuel

/-- When every page the source serves is full (length exactly `perPage`),
the loop fetches exactly one page per unit of fuel and concatenates them. -/
lemma fetchPagesGo_full {α : Type} (fetch1 : Nat → Option (List α))
    (pages : Nat → List α) (perPage : Nat) (hp : 0 < perPage)
    (hfull : ∀ p, fetch1 p = some (pages p) ∧ (pages p).length = perPage) :
    ∀ fuel page,
      fetchPagesGo fetch1 perPage page fuel = (concatFrom pages page fuel, fuel) := by
  intro fuel
  induction fuel with
  | zero => intro page; rfl
  | succ f ih =>
    intro page
    unfold fetchPagesGo
    rw [(hfull page).1]
    simp only [(hfull page).2]
    rw [if_neg hp.ne', if_neg (lt_irrefl perPage), ih (page + 1)]
    rfl

/-- Claim C6: `fetchAllPages` fetches pages 1, 2, ... in order and returns
the concatenation of the fetched pages, stopping at the earliest of a
short page, an empty or non-array page, or `maxPages` pages fetched.
First conjunct: against a source serving only full pages (so in
particular `maxPages` full pages followed by more full pages) it performs
exactly `maxPages` fetches and returns the concatenation of pages
`1..maxPages`.  Second conjunct: against a source whose page 1 is full
and whose page 2 is shorter than the page size (but non-empty), with
`maxPages ≥ 2`, it performs exactly 2 fetches and returns the
concatenation of pages 1 and 2 only. -/
theorem c6_pagination :
    (∀ (α : Type) (fetch1 : Nat → Option (List α)) (pages : Nat → List α)
       (perPage maxPages : Nat),
       0 < perPage →
       (∀ p, fetch1 p = some (pages p) ∧ (pages p).length = perPage) →
       fetchAllPages fetch1 perPage maxPages = concatFrom pages 1 maxPages ∧
       fetchAllPagesCalls fetch1 perPage maxPages = maxPages) ∧
    (∀ (α : Type) (fetch1 : Nat → Option (List α)) (perPage maxPages : Nat)
       (p1 p2 : List α),
       2 ≤ maxPages →
       fetch1 1 = some p1 → p1.length = perPage →
       fetch1 2 = some p2 → 0 < p2.length → p2.length < perPage →
       fetchAllPages fetch1 perPage maxPages = p1 ++ p2 ∧
       fetchAllPagesCalls fetch1 perPage maxPages = 2) := by
  constructor
  · intro α fetch1 pages perPage maxPages hp hfull
    unfold fetchAllPages fetchAllPagesCalls
    rw [fetchPagesGo_full fetch1 pages perPage hp hfull]
    exact ⟨rfl, rfl⟩
  · intro α fetch1 perPage maxPages p1 p2 hmax h1 hlen1 h2 hpos hshort
    obtain ⟨m, rfl⟩ : ∃ m, maxPages = m + 2 :=
      ⟨maxPages - 2, (Nat.sub_add_cancel hmax).symm⟩
    have hp : 0 < perPage := lt_trans hpos hshort
    unfold fetchAllPages fetchAllPagesCalls
    unfold fetchPagesGo
    rw [h1]
    simp only [hlen1]
    rw [if_neg hp.ne', if_neg (lt_irrefl perPage)]
    unfold fetchPagesGo
    rw [h2]
    dsimp only
    rw [if_neg hpos.ne', if_pos hshort]
    exact ⟨rfl, rfl⟩

/-- Witness for Claim C6 at concrete sources: the all-full-pages source
serving `[10 * p]` as page `p` with page size 1 and `maxPages = 3`, and a
source whose page 1 is `[10, 11]` (full at page size 2) and whose page 2
is the short page `[20]` with `maxPages = 3`. -/
theorem c6_pagination_witness :
    (fetchAllPages (fun p => some [10 * p]) 1 3 =
        concatFrom (fun p => [10 * p]) 1 3 ∧
      fetchAllPagesCalls (fun p => some [10 * p]) 1 3 = 3) ∧
    (fetchAllPages
          (fun p => if p = 1 then some [10, 11] else
            if p = 2 then some [20] else some [30, 31]) 2 3 =
        [10, 11] ++ [20] ∧
      fetchAllPagesCalls
          (fun p => if p = 1 then some [10, 11] else
            if p = 2 then some [20] else some [30, 31]) 2 3 = 2) := by
  constructor
  · exact c6_pagination.1 Nat (fun p => some [10 * p]) (fun p => [10 * p]) 1 3
      (by decide) (fun p => ⟨rfl, rfl⟩)
  · exact c6_pagination.2 Nat
      (fun p => if p = 1 then some [10, 11] else
        if p = 2 then some [20] else some [30, 31]) 2 3 [10, 11] [20]
      (by decide) rfl rfl rfl (by decide) (by decide)

/-! ### The repository_metrics table and MetricsCollector (src/lib/database.ts)

The SQLite table `repository_metrics` has columns
`id INTEGER PRIMARY KEY AUTOINCREMENT, timestamp, date, stars, forks,
contributors, open_issues, closed_issues, open_prs, closed_prs,
merged_prs, commits, releases, created_at` and plain (non-unique) indexes
on `date` and `timestamp`.  A table is modelled as the list of its rows
in insertion order.  Metric values are JS numbers (`JSNum`). -/

/-- One stored row of `repository_metrics`. -/
structure DbRow where
  id : Int
  timestamp : Int
  date : String
  stars : JSNum
  forks : JSNum
  contributors : JSNum
  open_issues : JSNum
  closed_issues : JSNum
  open_prs : JSNum
  closed_prs : JSNum
  merged_prs : JSNum
  commits : JSNum
  releases : JSNum
  created_at : Int
deriving Repr, DecidableEq

/-- The snapshot record built by `collectCurrentMetrics`
(`Omit<RepositoryMetricsRecord, 'id' | 'created_at'>`). -/
structure MetricsRow where
  timestamp : Int
  date : String
  stars : JSNum
  forks : JSNum
  contributors : JSNum
  open_issues : JSNum
  closed_issues : JSNum
  open_prs : JSNum
  closed_prs : JSNum
  merged_prs : JSNum
  commits : JSNum
  releases : JSNum
deriving Repr, DecidableEq

/-- SQLite AUTOINCREMENT: the freshly assigned `id` is one more than the
largest `id` the table has seen (adequate for this append-only table). -/
def nextRowId (rows : List DbRow) : Int :=
  (rows.foldl (fun acc r => max acc r.id) 0) + 1

/-- `MetricsDatabase.storeMetrics`: runs
`INSERT OR REPLACE INTO repository_metrics (timestamp, date, ...) VALUES (...)`.
`OR REPLACE` only replaces rows that conflict on a uniqueness constraint;
the only such constraint is the `INTEGER PRIMARY KEY` column `id`, which
the statement omits, so SQLite assigns a fresh id and the statement
always appends a new row.  `created_at` takes its column default
`strftime('%s','now')`, passed here as `nowSec`. -/
def sqliteStoreMetrics (rows : List DbRow) (m : MetricsRow) (nowSec : Int) :
    List DbRow :=
  rows ++ [{ id := nextRowId rows, timestamp := m.timestamp, date := m.date,
             stars := m.stars, forks := m.forks, contributors := m.contributors,
             open_issues := m.open_issues, closed_issues := m.closed_issues,
             open_prs := m.open_prs, closed_prs := m.closed_prs,
             merged_prs := m.merged_prs, commits := m.commits,
             releases := m.releases, created_at := nowSec }]

/-- The aggregate returned by `GitHubAPI.getAllTimeRepositoryStats`
(`issuesOpen/issuesClosed` model `issues.open/issues.closed`, the
`prs...` fields model `pullRequests.open/closed/merged`). -/
structure AllTimeStats where
  stars : JSNum
  forks : JSNum
  contributors : JSNum
  commits : JSNum
  releases : JSNum
  issuesOpen : JSNum
  issuesClosed : JSNum
  prsOpen : JSNum
  prsClosed : JSNum
  prsMerged : JSNum
deriving Repr, DecidableEq

/-- The wall-clock context of one `collectCurrentMetrics` call:
`nowMs = now.getTime()`, `todayStr = now.toISOString().split('T')[0]`,
and `nowSec` the store-assigned `created_at` default. -/
structure CollectCtx where
  nowMs : Int
  todayStr : String
  nowSec : Int
deriving Repr, DecidableEq

/-- The snapshot record assembled by `collectCurrentMetrics` from the
all-time statistics. -/
def buildSnapshot (stats : AllTimeStats) (ctx : CollectCtx) : MetricsRow :=
  { timestamp := ctx.nowMs, date := ctx.todayStr,
    stars := stats.stars, forks := stats.forks,
    contributors := stats.contributors, commits := stats.commits,
    releases := stats.releases, open_issues := stats.issuesOpen,
    closed_issues := stats.issuesClosed, open_prs := stats.prsOpen,
    closed_prs := stats.prsClosed, merged_prs := stats.prsMerged }

/-- `MetricsCollector.validateMetrics`: every required field must satisfy
`typeof value === 'number' && !isNaN(value)` (all fields here are numbers,
so only NaN fails), every field must not be `< 0`, and
`merged_prs > closed_prs` must not hold.  Checks appear in the source's
field order. -/
def validateMetrics (m : MetricsRow) : Bool :=
  (!m.stars.isNaNb && !m.forks.isNaNb && !m.contributors.isNaNb &&
    !m.commits.isNaNb && !m.releases.isNaNb && !m.open_issues.isNaNb &&
    !m.closed_issues.isNaNb && !m.open_prs.isNaNb && !m.closed_prs.isNaNb &&
    !m.merged_prs.isNaNb) &&
  (!m.stars.ltZero && !m.forks.ltZero && !m.contributors.ltZero &&
    !m.commits.ltZero && !m.releases.ltZero && !m.open_issues.ltZero &&
    !m.closed_issues.ltZero && !m.open_prs.ltZero && !m.closed_prs.ltZero &&
    !m.merged_prs.ltZero) &&
  !(m.merged_prs.gt m.closed_prs)

/-- `MetricsCollector.collectCurrentMetrics`: builds the snapshot from
the all-time statistics, validates it, and either throws
`Error('Invalid metrics data collected')` without touching the store, or
stores it via the (SQLite-backed) adapter.  The result pairs the thrown
error or returned snapshot with the store contents after the call. -/
def collectCurrentMetrics (stats : AllTimeStats) (ctx : CollectCtx)
    (rows : List DbRow) : Except String MetricsRow × List DbRow :=
  let m := buildSnapshot stats ctx
  if validateMetrics m then
    (Except.ok m, sqliteStoreMetrics rows m ctx.nowSec)
  else
    (Except.error "Invalid metrics data collected", rows)

/-- Claim C2: for every collected snapshot whose `merged_prs` exceeds
`closed_prs` (both finite numbers), `collectCurrentMetrics` throws the
validation error and the store's contents are unchanged: `storeMetrics`
is never called with that snapshot. -/
theorem c2_validation_rejects_inconsistency (stats : AllTimeStats)
    (ctx : CollectCtx) (rows : List DbRow) (a b : Int)
    (hm : stats.prsMerged = JSNum.fin a) (hc : stats.prsClosed = JSNum.fin b)
    (hab : b < a) :
    (collectCurrentMetrics stats ctx rows).1 =
      Except.error "Invalid metrics data collected" ∧
    (collectCurrentMetrics stats ctx rows).2 = rows := by
  have hv : validateMetrics (buildSnapshot stats ctx) = false := by
    simp [validateMetrics, buildSnapshot, hm, hc, JSNum.gt, hab]
  simp [collectCurrentMetrics, hv]

/-- Witness for Claim C2: a snapshot with 5 merged PRs but only 3 closed
PRs is rejected and not persisted. -/
theorem c2_validation_rejects_inconsistency_witness :
    (collectCurrentMetrics
        ⟨JSNum.fin 10, JSNum.fin 2, JSNum.fin 4, JSNum.fin 7, JSNum.fin 1,
          JSNum.fin 3, JSNum.fin 6, JSNum.fin 2, JSNum.fin 3, JSNum.fin 5⟩
        ⟨1700000000000, "2023-11-14", 1700000000⟩ []).1 =
      Except.error "Invalid metrics data collected" ∧
    (collectCurrentMetrics
        ⟨JSNum.fin 10, JSNum.fin 2, JSNum.fin 4, JSNum.fin 7, JSNum.fin 1,
          JSNum.fin 3, JSNum.fin 6, JSNum.fin 2, JSNum.fin 3, JSNum.fin 5⟩
        ⟨1700000000000, "2023-11-14", 1700000000⟩ []).2 = [] :=
  c2_validation_rejects_inconsistency
    ⟨JSNum.fin 10, JSNum.fin 2, JSNum.fin 4, JSNum.fin 7, JSNum.fin 1,
      JSNum.fin 3, JSNum.fin 6, JSNum.fin 2, JSNum.fin 3, JSNum.fin 5⟩
    ⟨1700000000000, "2023-11-14", 1700000000⟩ [] 5 3 rfl rfl (by decide)

/-- Claim C8, counterexample: the claim states that a snapshot with any
non-finite count field is rejected and never persisted.  A snapshot whose
`stars` field is positive infinity passes `validateMetrics` — the code
checks `isNaN(value)` and `value < 0`, and `Infinity` fails neither — so
`collectCurrentMetrics` succeeds and persists the snapshot (the store
grows by one row). -/
theorem c8_infinity_accepted_counterexample :
    validateMetrics (buildSnapshot
        ⟨JSNum.posInf, JSNum.fin 0, JSNum.fin 0, JSNum.fin 0, JSNum.fin 0,
          JSNum.fin 0, JSNum.fin 0, JSNum.fin 0, JSNum.fin 0, JSNum.fin 0⟩
        ⟨1700000000000, "2023-11-14", 1700000000⟩) = true ∧
    (collectCurrentMetrics
        ⟨JSNum.posInf, JSNum.fin 0, JSNum.fin 0, JSNum.fin 0, JSNum.fin 0,
          JSNum.fin 0, JSNum.fin 0, JSNum.fin 0, JSNum.fin 0, JSNum.fin 0⟩
        ⟨1700000000000, "2023-11-14", 1700000000⟩ []).1 =
      Except.ok (buildSnapshot
        ⟨JSNum.posInf, JSNum.fin 0, JSNum.fin 0, JSNum.fin 0, JSNum.fin 0,
          JSNum.fin 0, JSNum.fin 0, JSNum.fin 0, JSNum.fin 0, JSNum.fin 0⟩
        ⟨1700000000000, "2023-11-14", 1700000000⟩) ∧
    ((collectCurrentMetrics
        ⟨JSNum.posInf, JSNum.fin 0, JSNum.fin 0, JSNum.fin 0, JSNum.fin 0,
          JSNum.fin 0, JSNum.fin 0, JSNum.fin 0, JSNum.fin 0, JSNum.fin 0⟩
        ⟨1700000000000, "2023-11-14", 1700000000⟩ []).2).length = 1 :=
  ⟨rfl, rfl, rfl⟩

/-- A field value the validator rejects: NaN, a negative finite number,
or negative infinity.  Positive infinity is not rejected. -/
def jsBadField (v : JSNum) : Bool := v.isNaNb || v.ltZero

/-- Claim C8 (amended): for every snapshot in which any count field is
NaN, a negative finite number, or negative infinity, `validateMetrics`
rejects the snapshot, the collection throws, and the snapshot is never
persisted; a field equal to positive infinity, however, passes the
per-field checks. -/
theorem c8_validation_rejects_nan_negative (stats : AllTimeStats)
    (ctx : CollectCtx) (rows : List DbRow)
    (h : jsBadField (buildSnapshot stats ctx).stars = true ∨
         jsBadField (buildSnapshot stats ctx).forks = true ∨
         jsBadField (buildSnapshot stats ctx).contributors = true ∨
         jsBadField (buildSnapshot stats ctx).commits = true ∨
         jsBadField (buildSnapshot stats ctx).releases = true ∨
         jsBadField (buildSnapshot stats ctx).open_issues = true ∨
         jsBadField (buildSnapshot stats ctx).closed_issues = true ∨
         jsBadField (buildSnapshot stats ctx).open_prs = true ∨
         jsBadField (buildSnapshot stats ctx).closed_prs = true ∨
         jsBadField (buildSnapshot stats ctx).merged_prs = true) :
    validateMetrics (buildSnapshot stats ctx) = false ∧
    (collectCurrentMetrics stats ctx rows).1 =
      Except.error "Invalid metrics data collected" ∧
    (collectCurrentMetrics stats ctx rows).2 = rows := by
  have hv : validateMetrics (buildSnapshot stats ctx) = false := by
    rcases h with h|h|h|h|h|h|h|h|h|h <;>
      simp only [jsBadField, Bool.or_eq_true] at h <;>
      rcases h with h1|h1 <;>
      simp [validateMetrics, h1]
  refine ⟨hv, ?_, ?_⟩ <;> simp [collectCurrentMetrics, hv]

/-- Witness for the amended Claim C8: a snapshot with `forks = -1` is
rejected and not persisted. -/
theorem c8_validation_rejects_nan_negative_witness :
    validateMetrics (buildSnapshot
        ⟨JSNum.fin 3, JSNum.fin (-1), JSNum.fin 0, JSNum.fin 0, JSNum.fin 0,
          JSNum.fin 0, JSNum.fin 0, JSNum.fin 0, JSNum.fin 0, JSNum.fin 0⟩
        ⟨1700000000000, "2023-11-14", 1700000000⟩) = false ∧
    (collectCurrentMetrics
        ⟨JSNum.fin 3, JSNum.fin (-1), JSNum.fin 0, JSNum.fin 0, JSNum.fin 0,
          JSNum.fin 0, JSNum.fin 0, JSNum.fin 0, JSNum.fin 0, JSNum.fin 0⟩
        ⟨1700000000000, "2023-11-14", 1700000000⟩ []).1 =
      Except.error "Invalid metrics data collected" ∧
    (collectCurrentMetrics
        ⟨JSNum.fin 3, JSNum.fin (-1), JSNum.fin 0, JSNum.fin 0, JSNum.fin 0,
          JSNum.fin 0, JSNum.fin 0, JSNum.fin 0, JSNum.fin 0, JSNum.fin 0⟩
        ⟨1700000000000, "2023-11-14", 1700000000⟩ []).2 = [] :=
  c8_validation_rejects_nan_negative
    ⟨JSNum.fin 3, JSNum.fin (-1), JSNum.fin 0, JSNum.fin 0, JSNum.fin 0,
      JSNum.fin 0, JSNum.fin 0, JSNum.fin 0, JSNum.fin 0, JSNum.fin 0⟩
    ⟨1700000000000, "2023-11-14", 1700000000⟩ []
    (Or.inr (Or.inl (by decide)))

/-- Number of stored rows carrying a given `date`. -/
def countRowsWithDate (rows : List DbRow) (d : String) : Nat :=
  (rows.filter (fun r => r.date = d)).length

/-- Claim C1, evaluation at the failing input: storing two snapshots with
the same `date` leaves TWO rows for that date, not one.  The table's only
uniqueness constraint is the auto-assigned `id`, so the
`INSERT OR REPLACE` in `storeMetrics` never finds a conflicting row and
always appends; the claimed per-date upsert never happens. -/
theorem c1_same_date_inserts_two_rows :
    countRowsWithDate
      (sqliteStoreMetrics
        (sqliteStoreMetrics []
          ⟨1704067200000, "2024-01-01", JSNum.fin 1, JSNum.fin 0, JSNum.fin 0,
            JSNum.fin 0, JSNum.fin 0, JSNum.fin 0, JSNum.fin 0, JSNum.fin 0,
            JSNum.fin 0, JSNum.fin 0⟩ 1704067200)
        ⟨1704070800000, "2024-01-01", JSNum.fin 2, JSNum.fin 0, JSNum.fin 0,
          JSNum.fin 0, JSNum.fin 0, JSNum.fin 0, JSNum.fin 0, JSNum.fin 0,
          JSNum.fin 0, JSNum.fin 0⟩ 1704070800)
      "2024-01-01" = 2 := by
  rfl

/-- `MetricsDatabase.cleanupOldMetrics()`: runs
`DELETE FROM repository_metrics WHERE timestamp < ?` with the timestamp
of `new Date()` whose year was decremented by two
(`twoYearsAgo.setFullYear(getFullYear() - 2)`), passed here as
`twoYearsAgoTs`.  It takes no retention argument and returns no count. -/
def sqliteCleanupOldMetrics (rows : List DbRow) (twoYearsAgoTs : Int) :
    List DbRow :=
  rows.filter (fun r => !(r.timestamp < twoYearsAgoTs))

/-- `MetricsCollector.cleanupOldMetrics(retentionDays)`: computes a
cutoff date string from `retentionDays` but only logs it, then calls the
adapter's `cleanupOldMetrics()` with no arguments; on the SQLite backend
that deletes rows older than two years regardless of `retentionDays`,
and nothing returns a deletion count. -/
def collectorCleanupOldMetrics (_retentionDays : Nat) (rows : List DbRow)
    (twoYearsAgoTs : Int) : List DbRow :=
  sqliteCleanupOldMetrics rows twoYearsAgoTs

/-- Claim C9, evaluation at the failing input: with `retentionDays = 365`
and `now = 1700000000000` (2023-11-14), a row whose timestamp is 400 days
old (`1665440000000`) is older than the claimed cutoff `now − 365 days`,
yet `cleanupOldMetrics(365)` retains it, because the code ignores
`retentionDays` and deletes only rows older than two calendar years
(`twoYearsAgoTs = 1636928000000`, i.e. 2021-11-14). -/
theorem c9_cleanup_ignores_retention :
    (1665440000000 : Int) < 1700000000000 - 365 * 86400000 ∧
    collectorCleanupOldMetrics 365
        [⟨1, 1665440000000, "2022-10-10", JSNum.fin 1, JSNum.fin 0,
          JSNum.fin 0, JSNum.fin 0, JSNum.fin 0, JSNum.fin 0, JSNum.fin 0,
          JSNum.fin 0, JSNum.fin 0, JSNum.fin 0, 1665440000⟩]
        1636928000000 =
      [⟨1, 1665440000000, "2022-10-10", JSNum.fin 1, JSNum.fin 0,
        JSNum.fin 0, JSNum.fin 0, JSNum.fin 0, JSNum.fin 0, JSNum.fin 0,
        JSNum.fin 0, JSNum.fin 0, JSNum.fin 0, 1665440000⟩] :=
  ⟨by decide, rfl⟩

/-! ### DataCollectionScheduler (src/unnamed/part_004)

`collectMetricsWithRetry` runs `while (attempt < maxRetries)`: on success
it records the success and returns; on failure it increments `attempt`
and `totalErrors` and, if `attempt < maxRetries` still holds, sleeps
`retryDelay * backoffMultiplier ^ (attempt - 1)` ms before the next
attempt.  When the loop exhausts, it records the failed run and bumps
`consecutiveErrors` once.  The collector outcomes are an oracle
`outcome : Nat → Bool` (`outcome k` is the result of the `k+1`-th
invocation of `collectAndStore`); timers are observed as the list of
sleep durations. -/

/-- Scheduler configuration (defaults in the source: interval strings,
`retentionDays = 365`, `maxRetries = 3`, `retryDelay = 5000`,
`backoffMultiplier = 2`, notifications on, `errorThreshold = 5`). -/
structure SchedulerConfig where
  metricsInterval : String
  cleanupInterval : String
  retentionDays : Nat
  maxRetries : Nat
  retryDelay : Nat
  backoffMultiplier : Nat
  enableErrorNotifications : Bool
  errorThreshold : Nat
deriving Repr, DecidableEq

/-- Scheduler statistics; the `Date` timestamps are epoch milliseconds. -/
structure SchedulerStats where
  lastSuccessfulCollection : Option Int
  lastFailedCollection : Option Int
  consecutiveErrors : Nat
  totalCollections : Nat
  totalErrors : Nat
  isRunning : Bool
deriving Repr, DecidableEq

/-- Result of one retry-wrapped collection run: final statistics, the
backoff sleep durations in order, and the number of collector
invocations. -/
structure RetryRun where
  stats : SchedulerStats
  sleeps : List Nat
  calls : Nat
deriving Repr, DecidableEq

/-- The retry loop of `collectMetricsWithRetry`, with `attempt` the
current attempt counter and `fuel = maxRetries - attempt` remaining loop
iterations.  `now` is the wall clock used for the success/failure
timestamps. -/
def retryGo (outcome : Nat → Bool) (cfg : SchedulerConfig) (now : Int) :
    Nat → Nat → SchedulerStats → RetryRun
  | 0, _, stats =>
    ⟨{ stats with lastFailedCollection := some now,
                  consecutiveErrors := stats.consecutiveErrors + 1 }, [], 0⟩
  | fuel + 1, attempt, stats =>
    if outcome attempt then
      ⟨{ stats with lastSuccessfulCollection := some now,
                    consecutiveErrors := 0,
                    totalCollections := stats.totalCollections + 1 }, [], 1⟩
    else
      let rest := retryGo outcome cfg now fuel (attempt + 1)
        { stats with totalErrors := stats.totalErrors + 1 }
      if attempt + 1 < cfg.maxRetries then
        ⟨rest.stats,
          cfg.retryDelay * cfg.backoffMultiplier ^ attempt :: rest.sleeps,
          rest.calls + 1⟩
      else
        ⟨rest.stats, rest.sleeps, rest.calls + 1⟩

/-- `DataCollectionScheduler.collectMetricsWithRetry` (also the body of
`collectNow`). -/
def collectMetricsWithRetry (outcome : Nat → Bool) (cfg : SchedulerConfig)
    (now : Int) (stats : SchedulerStats) : RetryRun :=
  retryGo outcome cfg now cfg.maxRetries 0 stats

/-- When every attempt fails, the loop makes one collector call per unit
of fuel and, at exhaustion, bumps `consecutiveErrors` exactly once while
`lastSuccessfulCollection` is untouched. -/
lemma retryGo_all_fail (outcome : Nat → Bool) (cfg : SchedulerConfig)
    (now : Int) (hfail : ∀ k, outcome k = false) :
    ∀ fuel attempt stats,
      (retryGo outcome cfg now fuel attempt stats).calls = fuel ∧
      (retryGo outcome cfg now fuel attempt stats).stats.consecutiveErrors =
        stats.consecutiveErrors + 1 ∧
      (retryGo outcome cfg now fuel attempt stats).stats.lastSuccessfulCollection =
        stats.lastSuccessfulCollection := by
  intro fuel
  induction fuel with
  | zero => intro attempt stats; exact ⟨rfl, rfl, rfl⟩
  | succ f ih =>
    intro attempt stats
    unfold retryGo
    rw [hfail attempt]
    simp only [Bool.false_eq_true, if_false]
    have h := ih (attempt + 1) { stats with totalErrors := stats.totalErrors + 1 }
    by_cases hlt : attempt + 1 < cfg.maxRetries
    · simp only [if_pos hlt]
      exact ⟨by simp [h.1], h.2.1, h.2.2⟩
    · simp only [if_neg hlt]
      exact ⟨by simp [h.1], h.2.1, h.2.2⟩

/-- Claim C4: when every collection attempt fails, one run of the
retry-wrapped collection invokes the collector exactly `maxRetries`
times, and `consecutiveErrors` after the run is exactly one greater than
before the run (one increment per failed run, not one per attempt). -/
theorem c4_retry_exhaustion (outcome : Nat → Bool) (cfg : SchedulerConfig)
    (now : Int) (stats : SchedulerStats) (hfail : ∀ k, outcome k = false) :
    (collectMetricsWithRetry outcome cfg now stats).calls = cfg.maxRetries ∧
    (collectMetricsWithRetry outcome cfg now stats).stats.consecutiveErrors =
      stats.consecutiveErrors + 1 := by
  have h := retryGo_all_fail outcome cfg now hfail cfg.maxRetries 0 stats
  exact ⟨h.1, h.2.1⟩

/-- Witness for Claim C4 at the source's default configuration
(`maxRetries = 3`) and fresh statistics: 3 collector calls, and
`consecutiveErrors` goes from 0 to 1. -/
theorem c4_retry_exhaustion_witness :
    (collectMetricsWithRetry (fun _ => false)
        ⟨"0 */6 * * *", "0 2 * * 0", 365, 3, 5000, 2, true, 5⟩
        1700000000000 ⟨none, none, 0, 0, 0, true⟩).calls = 3 ∧
    (collectMetricsWithRetry (fun _ => false)
        ⟨"0 */6 * * *", "0 2 * * 0", 365, 3, 5000, 2, true, 5⟩
        1700000000000 ⟨none, none, 0, 0, 0, true⟩).stats.consecutiveErrors =
      1 :=
  c4_retry_exhaustion (fun _ => false)
    ⟨"0 */6 * * *", "0 2 * * 0", 365, 3, 5000, 2, true, 5⟩
    1700000000000 ⟨none, none, 0, 0, 0, true⟩ (fun _ => rfl)

/-- The retry loop under `j` initial failures followed by a success at
attempt `j + 1` (within the retry bound): the backoff sleeps are
`retryDelay * backoffMultiplier ^ (attempt + i)` for `i < j`, and the
collector is called `j + 1` times. -/
lemma retryGo_backoff (outcome : Nat → Bool) (cfg : SchedulerConfig)
    (now : Int) :
    ∀ (j fuel attempt : Nat) (stats : SchedulerStats),
      fuel + attempt = cfg.maxRetries →
      (∀ k, k < j → outcome (attempt + k) = false) →
      outcome (attempt + j) = true →
      attempt + j < cfg.maxRetries →
      (retryGo outcome cfg now fuel attempt stats).sleeps =
        (List.range j).map
          (fun i => cfg.retryDelay * cfg.backoffMultiplier ^ (attempt + i)) ∧
      (retryGo outcome cfg now fuel attempt stats).calls = j + 1 := by
  intro j
  induction j with
  | zero =>
    intro fuel attempt stats hfu hfail hsucc hlt
    cases fuel with
    | zero => omega
    | succ f =>
      unfold retryGo
      rw [show attempt + 0 = attempt by omega] at hsucc
      rw [hsucc]
      exact ⟨rfl, rfl⟩
  | succ n ih =>
    intro fuel attempt stats hfu hfail hsucc hlt
    cases fuel with
    | zero => omega
    | succ f =>
      unfold retryGo
      rw [show attempt = attempt + 0 by omega, hfail 0 (Nat.succ_pos n)]
      simp only [Bool.false_eq_true, if_false]
      rw [show attempt + 0 + 1 = attempt + 1 by omega]
      have hlt1 : attempt + 1 < cfg.maxRetries := by omega
      rw [if_pos hlt1]
      have ihh := ih f (attempt + 1)
        { stats with totalErrors := stats.totalErrors + 1 } (by omega)
        (fun k hk => by
          have h := hfail (k + 1) (by omega)
          rw [show attempt + (k + 1) = attempt + 1 + k by omega] at h
          exact h)
        (by
          rw [show attempt + (n + 1) = attempt + 1 + n by omega] at hsucc
          exact hsucc)
        (by omega)
      constructor
      · simp only [ihh.1, List.range_succ_eq_map, List.map_cons, List.map_map]
        rw [show attempt + 0 + 0 = attempt + 0 by omega]
        congr 1
        refine List.map_congr_left fun a _ => ?_
        simp only [Function.comp_apply]
        have he : attempt + 1 + a = attempt + 0 + (a + 1) := by omega
        rw [he]
      · simp only [ihh.2]

/-- Claim C5: when the first `j` collection attempts fail and attempt
`j + 1` succeeds (within the retry bound), exactly `j` backoff sleeps
occur, and the sleep before attempt `k + 1` lasts
`retryDelay * backoffMultiplier ^ (k - 1)` ms (index `i = k - 1` below);
for two failures then a success the sleeps are `retryDelay` and
`retryDelay * backoffMultiplier`. -/
theorem c5_backoff_growth (outcome : Nat → Bool) (cfg : SchedulerConfig)
    (now : Int) (stats : SchedulerStats) (j : Nat)
    (hfail : ∀ k, k < j → outcome k = false) (hsucc : outcome j = true)
    (hj : j < cfg.maxRetries) :
    (collectMetricsWithRetry outcome cfg now stats).sleeps =
      (List.range j).map
        (fun i => cfg.retryDelay * cfg.backoffMultiplier ^ i) ∧
    (collectMetricsWithRetry outcome cfg now stats).calls = j + 1 := by
  have h := retryGo_backoff outcome cfg now j cfg.maxRetries 0 stats
    (by omega) (fun k hk => by simpa using hfail k hk) (by simpa using hsucc)
    (by omega)
  refine ⟨?_, h.2⟩
  have hs : (collectMetricsWithRetry outcome cfg now stats).sleeps =
      (List.range j).map
        (fun i => cfg.retryDelay * cfg.backoffMultiplier ^ (0 + i)) := h.1
  rw [hs]
  refine List.map_congr_left fun a _ => ?_
  rw [Nat.zero_add]

/-- Witness for Claim C5 at the source's default configuration
(`retryDelay = 5000`, `backoffMultiplier = 2`, `maxRetries = 3`) with
attempts 1 and 2 failing and attempt 3 succeeding: two sleeps of 5000 ms
and 10000 ms, and three collector calls. -/
theorem c5_backoff_growth_witness :
    (collectMetricsWithRetry
        (fun k => match k with | 0 => false | 1 => false | _ => true)
        ⟨"0 */6 * * *", "0 2 * * 0", 365, 3, 5000, 2, true, 5⟩
        1700000000000 ⟨none, none, 0, 0, 0, true⟩).sleeps = [5000, 10000] ∧
    (collectMetricsWithRetry
        (fun k => match k with | 0 => false | 1 => false | _ => true)
        ⟨"0 */6 * * *", "0 2 * * 0", 365, 3, 5000, 2, true, 5⟩
        1700000000000 ⟨none, none, 0, 0, 0, true⟩).calls = 3 := by
  have h := c5_backoff_growth
    (fun k => match k with | 0 => false | 1 => false | _ => true)
    ⟨"0 */6 * * *", "0 2 * * 0", 365, 3, 5000, 2, true, 5⟩
    1700000000000 ⟨none, none, 0, 0, 0, true⟩ 2
    (fun k hk => match k, hk with
      | 0, _ => rfl
      | 1, _ => rfl)
    rfl (by decide)
  refine ⟨?_, h.2⟩
  rw [h.1]
  rfl

/-! ### The two storage backends (src/lib/database.ts MetricsDatabase,
src/lib/simple-cache.ts NeonDatabase, src/lib/database-adapter.ts)

Dates are `YYYY-MM-DD` strings; SQLite compares them as TEXT under the
BINARY collation (byte-wise, which on these ASCII strings is code-point
lexicographic) and Postgres compares the `DATE` values (same order on
this format), modelled by the lexicographic `strLe` below.  Result shapes
are rendered as (two-level) JS values so results of the two backends can
be compared for identity. -/

/-- Lexicographic comparison of character lists by code point. -/
def charListLe : List Char → List Char → Bool
  | [], _ => true
  | _ :: _, [] => false
  | c :: cs, d :: ds =>
    if c = d then charListLe cs ds
    else decide (c.val < d.val)

/-- String comparison as used for the `date` column (see section note). -/
def strLe (s t : String) : Bool := charListLe s.data t.data

/-- `ORDER BY timestamp DESC LIMIT 1`: the first row (in table order)
carrying the maximal timestamp. -/
def latestByTimestamp (rows : List DbRow) : Option DbRow :=
  rows.foldl
    (fun acc r =>
      match acc with
      | none => some r
      | some a => if a.timestamp < r.timestamp then some r else some a)
    none

/-- Stable ascending insertion by `date` (rows with equal dates keep
their relative order). -/
def insertByDateAsc (r : DbRow) : List DbRow → List DbRow
  | [] => [r]
  | x :: xs =>
    if strLe x.date r.date then x :: insertByDateAsc r xs else r :: x :: xs

/-- `ORDER BY date ASC` as a stable sort. -/
def orderByDateAsc (rows : List DbRow) : List DbRow :=
  rows.foldl (fun acc r => insertByDateAsc r acc) []

/-- `MetricsDatabase.getLatestMetrics` (SQLite backend). -/
def sqliteGetLatestMetrics (rows : List DbRow) : Option DbRow :=
  latestByTimestamp rows

/-- `NeonDatabase.getLatestMetrics` and the range queries rebuild the
returned record field by field from the driver row (`parseInt` on the
bigint timestamp is the identity here). -/
def neonRemapRow (r : DbRow) : DbRow :=
  { id := r.id, timestamp := r.timestamp, date := r.date, stars := r.stars,
    forks := r.forks, contributors := r.contributors,
    open_issues := r.open_issues, closed_issues := r.closed_issues,
    open_prs := r.open_prs, closed_prs := r.closed_prs,
    merged_prs := r.merged_prs, commits := r.commits, releases := r.releases,
    created_at := r.created_at }

/-- `NeonDatabase.getLatestMetrics` (hosted backend). -/
def neonGetLatestMetrics (rows : List DbRow) : Option DbRow :=
  (latestByTimestamp rows).map neonRemapRow

/-- `MetricsDatabase.getMetricsInRange(startDate, endDate)`:
`WHERE date >= ? AND date <= ? ORDER BY date ASC`. -/
def sqliteGetMetricsInRange (rows : List DbRow) (s e : String) : List DbRow :=
  orderByDateAsc (rows.filter (fun r => strLe s r.date && strLe r.date e))

/-- `NeonDatabase.getMetricsInRange(startDate, endDate)`: same query,
rows rebuilt field by field. -/
def neonGetMetricsInRange (rows : List DbRow) (s e : String) : List DbRow :=
  (orderByDateAsc (rows.filter (fun r => strLe s r.date && strLe r.date e))).map
    neonRemapRow

/-- `NeonDatabase.storeMetrics`: a plain
`INSERT INTO repository_metrics (...) VALUES (...)` (no conflict clause),
with `id` assigned by the `SERIAL` sequence and `created_at` defaulting
to the current timestamp `nowSec`. -/
def neonStoreMetrics (rows : List DbRow) (m : MetricsRow) (nowSec : Int) :
    List DbRow :=
  rows ++ [{ id := nextRowId rows, timestamp := m.timestamp, date := m.date,
             stars := m.stars, forks := m.forks, contributors := m.contributors,
             open_issues := m.open_issues, closed_issues := m.closed_issues,
             open_prs := m.open_prs, closed_prs := m.closed_prs,
             merged_prs := m.merged_prs, commits := m.commits,
             releases := m.releases, created_at := nowSec }]

/-- A leaf JS value in a rendered query result. -/
inductive JLeaf where
  | jnull
  | jundef
  | jnum (v : JSNum)
  | jint (v : Int)
  | jstr (s : String)
deriving Repr, DecidableEq

/-- A flat JS object: named leaf values in construction order. -/
abbrev JObj : Type := List (String × JLeaf)

/-- A field of a two-level JS result: a leaf or a nested flat object. -/
inductive JField where
  | leaf (v : JLeaf)
  | obj (o : JObj)
deriving Repr, DecidableEq

/-- A two-level JS object, the shape of the `getTimeRangeMetrics`
results. -/
abbrev JTop : Type := List (String × JField)

/-- A stored row rendered as the JS object the SQLite driver returns
(`SELECT *` column order). -/
def rowToJObj (r : DbRow) : JObj :=
  [("id", .jint r.id), ("timestamp", .jint r.timestamp),
   ("date", .jstr r.date), ("stars", .jnum r.stars),
   ("forks", .jnum r.forks), ("contributors", .jnum r.contributors),
   ("open_issues", .jnum r.open_issues),
   ("closed_issues", .jnum r.closed_issues), ("open_prs", .jnum r.open_prs),
   ("closed_prs", .jnum r.closed_prs), ("merged_prs", .jnum r.merged_prs),
   ("commits", .jnum r.commits), ("releases", .jnum r.releases),
   ("created_at", .jint r.created_at)]

/-- The cutoff `now - days * 24h` of `getTimeRangeMetrics`. -/
def trCutoff (nowMs days : Int) : Int := nowMs - days * (24 * 60 * 60 * 1000)

/-- SQLite `getTimeRangeMetrics`: the current-side row
(`WHERE timestamp >= cutoff ORDER BY timestamp DESC LIMIT 1`). -/
def sqliteTrCurrent (rows : List DbRow) (nowMs days : Int) : Option DbRow :=
  latestByTimestamp (rows.filter (fun r => trCutoff nowMs days ≤ r.timestamp))

/-- SQLite `getTimeRangeMetrics`: the previous-side row
(`WHERE timestamp < cutoff ORDER BY timestamp DESC LIMIT 1`). -/
def sqliteTrPrevious (rows : List DbRow) (nowMs days : Int) : Option DbRow :=
  latestByTimestamp (rows.filter (fun r => r.timestamp < trCutoff nowMs days))

/-- Neon `getTimeRangeMetrics`: the current-side row (same query as the
SQLite backend). -/
def neonTrCurrent (rows : List DbRow) (nowMs days : Int) : Option DbRow :=
  latestByTimestamp (rows.filter (fun r => trCutoff nowMs days ≤ r.timestamp))

/-- Neon `getTimeRangeMetrics`: the previous-side row (same query as the
SQLite backend). -/
def neonTrPrevious (rows : List DbRow) (nowMs days : Int) : Option DbRow :=
  latestByTimestamp (rows.filter (fun r => r.timestamp < trCutoff nowMs days))

/-- The field-wise `current - previous` object of the SQLite
`getTimeRangeMetrics` (10 metric fields, in source order). -/
def changeToJObj (cur prev : DbRow) : JObj :=
  [("stars", .jnum (cur.stars.sub prev.stars)),
   ("forks", .jnum (cur.forks.sub prev.forks)),
   ("contributors", .jnum (cur.contributors.sub prev.contributors)),
   ("open_issues", .jnum (cur.open_issues.sub prev.open_issues)),
   ("closed_issues", .jnum (cur.closed_issues.sub prev.closed_issues)),
   ("open_prs", .jnum (cur.open_prs.sub prev.open_prs)),
   ("closed_prs", .jnum (cur.closed_prs.sub prev.closed_prs)),
   ("merged_prs", .jnum (cur.merged_prs.sub prev.merged_prs)),
   ("commits", .jnum (cur.commits.sub prev.commits)),
   ("releases", .jnum (cur.releases.sub prev.releases))]

/-- `MetricsDatabase.getTimeRangeMetrics(days)` (SQLite backend),
rendered: null when no current-side row exists; otherwise
`{ current: <full row>, previous: <full row> | undefined,
change: <10-field deltas> | undefined }` (undefined when no
previous-side row exists). -/
def sqliteGetTimeRangeMetrics (rows : List DbRow) (nowMs days : Int) :
    Option JTop :=
  match sqliteTrCurrent rows nowMs days with
  | none => none
  | some cur =>
    some [("current", .obj (rowToJObj cur)),
          ("previous",
            match sqliteTrPrevious rows nowMs days with
            | some p => .obj (rowToJObj p)
            | none => .leaf .jundef),
          ("change",
            match sqliteTrPrevious rows nowMs days with
            | some p => .obj (changeToJObj cur p)
            | none => .leaf .jundef)]

/-- The three-field projection `{stars, forks, contributors}` used by the
Neon `getTimeRangeMetrics`. -/
def trend3 (r : DbRow) : JObj :=
  [("stars", .jnum r.stars), ("forks", .jnum r.forks),
   ("contributors", .jnum r.contributors)]

/-- JS `previous?.stars || current.stars`: the previous row's field when
the row exists and the field is truthy (nonzero, non-NaN), else the
current row's field. -/
def jsOrElse (prev : Option DbRow) (f : DbRow → JSNum) (cur : DbRow) : JSNum :=
  match prev with
  | none => f cur
  | some p => if (f p).truthy then f p else f cur

/-- `NeonDatabase.getTimeRangeMetrics(days)` (hosted backend), rendered:
null when no current-side row exists; otherwise current and previous are
projected to `{stars, forks, contributors}`, a missing previous falls
back to the current projection, and each change field is
`current.f - (previous?.f || current.f)`. -/
def neonGetTimeRangeMetrics (rows : List DbRow) (nowMs days : Int) :
    Option JTop :=
  match neonTrCurrent rows nowMs days with
  | none => none
  | some cur =>
    some [("current", .obj (trend3 cur)),
          ("previous",
            match neonTrPrevious rows nowMs days with
            | some p => .obj (trend3 p)
            | none => .obj (trend3 cur)),
          ("change", .obj
            [("stars", .jnum (cur.stars.sub
                (jsOrElse (neonTrPrevious rows nowMs days)
                  (fun r => r.stars) cur))),
             ("forks", .jnum (cur.forks.sub
                (jsOrElse (neonTrPrevious rows nowMs days)
                  (fun r => r.forks) cur))),
             ("contributors", .jnum (cur.contributors.sub
                (jsOrElse (neonTrPrevious rows nowMs days)
                  (fun r => r.contributors) cur)))])]

/-- Stable ascending insertion for date strings. -/
def insertStrAsc (s : String) : List String → List String
  | [] => [s]
  | x :: xs => if strLe x s then x :: insertStrAsc s xs else s :: x :: xs

/-- Sort a list of date strings ascending. -/
def sortStrAsc (l : List String) : List String :=
  l.foldl (fun acc s => insertStrAsc s acc) []

/-- `MetricsDatabase.getAvailableDates`:
`SELECT DISTINCT date ... ORDER BY date DESC`. -/
def availableDatesDesc (rows : List DbRow) : List String :=
  (sortStrAsc (rows.map (fun r => r.date)).dedup).reverse

/-- The shape of a `getHealthStatus` result. -/
structure HealthResult where
  isHealthy : Bool
  lastCollection : JLeaf
  recordCount : Nat
  oldestRecord : Option String
  newestRecord : Option String
deriving Repr, DecidableEq

/-- `DatabaseAdapter.getHealthStatus` on the SQLite backend: healthy iff
a latest row and at least one date exist; `recordCount` is the number of
DISTINCT dates; `oldestRecord` is `availableDates[0]` and `newestRecord`
the last element — but `getAvailableDates` sorts DESCENDING, so these two
come out newest-first.  `lastCollection` is
`latest.created_at || new Date().toISOString()` (the 0 timestamp is
falsy). -/
def adapterSqliteGetHealthStatus (rows : List DbRow) (nowIso : String) :
    HealthResult :=
  match sqliteGetLatestMetrics rows with
  | none => ⟨false, .jnull, 0, none, none⟩
  | some latest =>
    if (availableDatesDesc rows).length = 0 then ⟨false, .jnull, 0, none, none⟩
    else
      ⟨true,
        (if latest.created_at = 0 then .jstr nowIso
         else .jint latest.created_at),
        (availableDatesDesc rows).length,
        (availableDatesDesc rows).head?,
        (availableDatesDesc rows).getLast?⟩

/-- `MIN(date)` over the table. -/
def minDateBy (rows : List DbRow) : Option String :=
  rows.foldl
    (fun acc r =>
      match acc with
      | none => some r.date
      | some d => if strLe r.date d then some r.date else some d)
    none

/-- `MAX(date)` over the table. -/
def maxDateBy (rows : List DbRow) : Option String :=
  rows.foldl
    (fun acc r =>
      match acc with
      | none => some r.date
      | some d => if strLe d r.date then some r.date else some d)
    none

/-- `MAX(created_at)` over the table. -/
def maxCreatedAtBy (rows : List DbRow) : Option Int :=
  rows.foldl
    (fun acc r =>
      match acc with
      | none => some r.created_at
      | some t => some (max t r.created_at))
    none

/-- `NeonDatabase.getHealthStatus`: healthy iff `COUNT(*) > 0`;
`recordCount` is the row count, `oldestRecord`/`newestRecord` are
`MIN(date)`/`MAX(date)`, `lastCollection` is `MAX(created_at)`. -/
def neonGetHealthStatus (rows : List DbRow) : HealthResult :=
  if rows.length = 0 then ⟨false, .jnull, 0, none, none⟩
  else
    ⟨true,
      (match maxCreatedAtBy rows with
       | some t => .jint t
       | none => .jnull),
      rows.length, minDateBy rows, maxDateBy rows⟩

/-- Claim C3, counterexample: on a store holding the same two rows
(2024-01-01 and 2024-01-03, both within the 30-day window of
`now = 2024-01-04`), the two backends do NOT return identical results:
`getTimeRangeMetrics(30)` renders differently (the embedded backend
returns the full current row with `previous` and `change` undefined; the
hosted backend projects to stars/forks/contributors and falls back
`previous` to the current values with zero change), and
`getHealthStatus` disagrees on `oldestRecord` (the adapter's SQLite path
reads `availableDates[0]` of a DESCENDING list, so it reports the newest
date as oldest, and vice versa for `newestRecord`). -/
theorem c3_backends_differ_counterexample :
    sqliteGetTimeRangeMetrics
        [⟨1, 1704067200000, "2024-01-01", JSNum.fin 100, JSNum.fin 10,
          JSNum.fin 5, JSNum.fin 1, JSNum.fin 2, JSNum.fin 1, JSNum.fin 4,
          JSNum.fin 3, JSNum.fin 50, JSNum.fin 2, 1704067200⟩,
         ⟨2, 1704240000000, "2024-01-03", JSNum.fin 150, JSNum.fin 12,
          JSNum.fin 6, JSNum.fin 1, JSNum.fin 2, JSNum.fin 1, JSNum.fin 4,
          JSNum.fin 3, JSNum.fin 55, JSNum.fin 2, 1704240000⟩]
        1704326400000 30 ≠
      neonGetTimeRangeMetrics
        [⟨1, 1704067200000, "2024-01-01", JSNum.fin 100, JSNum.fin 10,
          JSNum.fin 5, JSNum.fin 1, JSNum.fin 2, JSNum.fin 1, JSNum.fin 4,
          JSNum.fin 3, JSNum.fin 50, JSNum.fin 2, 1704067200⟩,
         ⟨2, 1704240000000, "2024-01-03", JSNum.fin 150, JSNum.fin 12,
          JSNum.fin 6, JSNum.fin 1, JSNum.fin 2, JSNum.fin 1, JSNum.fin 4,
          JSNum.fin 3, JSNum.fin 55, JSNum.fin 2, 1704240000⟩]
        1704326400000 30 ∧
    (adapterSqliteGetHealthStatus
        [⟨1, 1704067200000, "2024-01-01", JSNum.fin 100, JSNum.fin 10,
          JSNum.fin 5, JSNum.fin 1, JSNum.fin 2, JSNum.fin 1, JSNum.fin 4,
          JSNum.fin 3, JSNum.fin 50, JSNum.fin 2, 1704067200⟩,
         ⟨2, 1704240000000, "2024-01-03", JSNum.fin 150, JSNum.fin 12,
          JSNum.fin 6, JSNum.fin 1, JSNum.fin 2, JSNum.fin 1, JSNum.fin 4,
          JSNum.fin 3, JSNum.fin 55, JSNum.fin 2, 1704240000⟩]
        "2024-01-04T00:00:00.000Z").oldestRecord ≠
      (neonGetHealthStatus
        [⟨1, 1704067200000, "2024-01-01", JSNum.fin 100, JSNum.fin 10,
          JSNum.fin 5, JSNum.fin 1, JSNum.fin 2, JSNum.fin 1, JSNum.fin 4,
          JSNum.fin 3, JSNum.fin 50, JSNum.fin 2, 1704067200⟩,
         ⟨2, 1704240000000, "2024-01-03", JSNum.fin 150, JSNum.fin 12,
          JSNum.fin 6, JSNum.fin 1, JSNum.fin 2, JSNum.fin 1, JSNum.fin 4,
          JSNum.fin 3, JSNum.fin 55, JSNum.fin 2, 1704240000⟩]).oldestRecord := by
  exact ⟨by decide, by decide⟩

/-- `neonRemapRow` rebuilds every field, so it is the identity. -/
lemma neonRemapRow_id : neonRemapRow = id := funext fun _ => rfl

/-- Claim C3 (amended): the two backends agree wherever they run the
same row-selection logic — `storeMetrics` appends the same row,
`getLatestMetrics` and `getMetricsInRange` return the same rows, and
`getTimeRangeMetrics` selects the same current-side and previous-side
rows and returns null in the same cases; but the structures
`getTimeRangeMetrics` builds from those rows differ (full records with
undefined previous/change versus three-field projections with a
previous-falls-back-to-current policy), and `getHealthStatus` differs
(distinct-date count versus row count, oldest/newest swapped on the
SQLite path), as the counterexample shows. -/
theorem c3_backend_row_selection_agreement (rows : List DbRow)
    (m : MetricsRow) (nowSec : Int) (s e : String) (nowMs days : Int) :
    sqliteStoreMetrics rows m nowSec = neonStoreMetrics rows m nowSec ∧
    sqliteGetLatestMetrics rows = neonGetLatestMetrics rows ∧
    sqliteGetMetricsInRange rows s e = neonGetMetricsInRange rows s e ∧
    sqliteTrCurrent rows nowMs days = neonTrCurrent rows nowMs days ∧
    sqliteTrPrevious rows nowMs days = neonTrPrevious rows nowMs days ∧
    ((sqliteGetTimeRangeMetrics rows nowMs days) = none ↔
      (neonGetTimeRangeMetrics rows nowMs days) = none) := by
  refine ⟨rfl, ?_, ?_, rfl, rfl, ?_⟩
  · simp [sqliteGetLatestMetrics, neonGetLatestMetrics, neonRemapRow_id]
  · simp [sqliteGetMetricsInRange, neonGetMetricsInRange, neonRemapRow_id]
  · unfold sqliteGetTimeRangeMetrics neonGetTimeRangeMetrics
    cases h : sqliteTrCurrent rows nowMs days <;>
      cases hn : neonTrCurrent rows nowMs days <;>
      simp_all [sqliteTrCurrent, neonTrCurrent]

/-! ### getStats / getConfig shallow copies (src/unnamed/part_004)

`getStats()` returns `{ ...this.stats }` and `getConfig()` returns
`{ ...this.config }`: fresh objects whose fields are copied.  All config
fields are primitives, but two stats fields hold `Date` objects, which a
shallow copy shares.  To reason about object identity, scheduler state is
modelled with explicit heaps: a heap of `Date` cells (mutable epoch-ms
values) addressed by `Nat`, and allocation heaps for stats and config
objects.  `SchedulerStats` (field values with dates dereferenced) is the
observation of a stats object; `SchedulerConfig` doubles as the config
object (it has no references). -/

/-- A stats object as stored on the heap: the two `Date` fields are
references into the date heap (`none` models null). -/
structure StatsObj where
  lastSuccessfulCollection : Option Nat
  lastFailedCollection : Option Nat
  consecutiveErrors : Nat
  totalCollections : Nat
  totalErrors : Nat
  isRunning : Bool
deriving Repr, DecidableEq

/-- Pointwise function update (assignment at one address). -/
def updateFn {β : Type} (f : Nat → β) (a : Nat) (v : β) : Nat → β :=
  fun x => if x = a then v else f x

/-- The scheduler's heap: `Date` cells, allocated stats and config
objects with bump allocation, and the addresses of the scheduler's own
`this.stats` and `this.config`. -/
structure SchedulerHeap where
  dateHeap : Nat → Int
  statsHeap : Nat → Option StatsObj
  statsNext : Nat
  configHeap : Nat → Option SchedulerConfig
  configNext : Nat
  statsAddr : Nat
  configAddr : Nat

/-- `getStats()`: allocates a fresh object holding a field-wise copy of
`this.stats` and returns its address. -/
def getStats (s : SchedulerHeap) : SchedulerHeap × Nat :=
  ({ s with
      statsHeap := updateFn s.statsHeap s.statsNext (s.statsHeap s.statsAddr),
      statsNext := s.statsNext + 1 },
    s.statsNext)

/-- `getConfig()`: allocates a fresh object holding a field-wise copy of
`this.config` and returns its address. -/
def getConfig (s : SchedulerHeap) : SchedulerHeap × Nat :=
  ({ s with
      configHeap :=
        updateFn s.configHeap s.configNext (s.configHeap s.configAddr),
      configNext := s.configNext + 1 },
    s.configNext)

/-- Assignment to fields of the stats object at `addr`
(e.g. `obj.consecutiveErrors = 99`). -/
def writeStatsField (s : SchedulerHeap) (addr : Nat) (f : StatsObj → StatsObj) :
    SchedulerHeap :=
  { s with statsHeap := updateFn s.statsHeap addr ((s.statsHeap addr).map f) }

/-- Assignment to fields of the config object at `addr`. -/
def writeConfigField (s : SchedulerHeap) (addr : Nat)
    (g : SchedulerConfig → SchedulerConfig) : SchedulerHeap :=
  { s with
      configHeap := updateFn s.configHeap addr ((s.configHeap addr).map g) }

/-- In-place mutation of a `Date` cell (`date.setTime(t)`). -/
def setDateTime (s : SchedulerHeap) (ref : Nat) (t : Int) : SchedulerHeap :=
  { s with dateHeap := updateFn s.dateHeap ref t }

/-- Observation of the stats object at `addr`: its field values with the
`Date` references dereferenced. -/
def observeStatsAt (s : SchedulerHeap) (addr : Nat) : Option SchedulerStats :=
  (s.statsHeap addr).map fun o =>
    { lastSuccessfulCollection := o.lastSuccessfulCollection.map s.dateHeap,
      lastFailedCollection := o.lastFailedCollection.map s.dateHeap,
      consecutiveErrors := o.consecutiveErrors,
      totalCollections := o.totalCollections,
      totalErrors := o.totalErrors,
      isRunning := o.isRunning }

/-- Observation of the scheduler's internal `this.stats`. -/
def observeStats (s : SchedulerHeap) : Option SchedulerStats :=
  observeStatsAt s s.statsAddr

/-- Observation of the config object at `addr` (no references to
dereference). -/
def observeConfigAt (s : SchedulerHeap) (addr : Nat) : Option SchedulerConfig :=
  s.configHeap addr

/-- Observation of the scheduler's internal `this.config`. -/
def observeConfig (s : SchedulerHeap) : Option SchedulerConfig :=
  s.configHeap s.configAddr

/-- A concrete scheduler heap: `this.stats` at address 0 with
`lastSuccessfulCollection` pointing at `Date` cell 0 (value 111), and
`this.config` at address 0 holding the default configuration. -/
def schedHeapEx : SchedulerHeap :=
  { dateHeap := fun n => if n = 0 then 111 else 0,
    statsHeap := fun n => if n = 0 then some ⟨some 0, none, 0, 4, 1, true⟩
      else none,
    statsNext := 1,
    configHeap := fun n =>
      if n = 0 then some ⟨"0 */6 * * *", "0 2 * * 0", 365, 3, 5000, 2, true, 5⟩
      else none,
    configNext := 1,
    statsAddr := 0,
    configAddr := 0 }

/-- Claim C10, counterexample: the object returned by `getStats()` shares
its `Date` values with the scheduler's internal stats.  On `schedHeapEx`,
the returned copy's `lastSuccessfulCollection` is the `Date` at cell 0;
mutating it through the returned object (`setTime(999)`) changes what a
subsequent `getStats()`-observer sees of the internal stats (the observed
`lastSuccessfulCollection` flips from 111 to 999), so mutating the
returned object does NOT leave the scheduler's state unchanged. -/
theorem c10_shared_date_counterexample :
    (((getStats schedHeapEx).1).statsHeap (getStats schedHeapEx).2).map
        (fun o => o.lastSuccessfulCollection) = some (some 0) ∧
    observeStats (setDateTime (getStats schedHeapEx).1 0 999) ≠
      observeStats schedHeapEx := by
  exact ⟨by decide, by decide⟩

/-- Claim C10 (amended): `getStats()` and `getConfig()` return shallow
copies: the copy observes the same field values as the internal object,
and reassigning any field of the returned copy leaves the observation of
the scheduler's internal stats and configuration unchanged; for
`getConfig` (all of whose fields are primitives) the copy is fully
independent, but `getStats`' copy shares its `Date` objects with the
internal stats, so in-place `Date` mutation through the copy is visible
internally (see the counterexample). -/
theorem c10_stats_config_copies (s : SchedulerHeap)
    (hs : s.statsAddr < s.statsNext) (hc : s.configAddr < s.configNext) :
    observeStatsAt (getStats s).1 (getStats s).2 = observeStats s ∧
    (∀ f : StatsObj → StatsObj,
      observeStats (writeStatsField (getStats s).1 (getStats s).2 f) =
        observeStats s) ∧
    observeConfigAt (getConfig s).1 (getConfig s).2 = observeConfig s ∧
    (∀ g : SchedulerConfig → SchedulerConfig,
      observeConfig (writeConfigField (getConfig s).1 (getConfig s).2 g) =
        observeConfig s) := by
  have hsne : s.statsAddr ≠ s.statsNext := Nat.ne_of_lt hs
  have hcne : s.configAddr ≠ s.configNext := Nat.ne_of_lt hc
  refine ⟨?_, ?_, ?_, ?_⟩
  · simp [getStats, observeStatsAt, observeStats, updateFn]
  · intro f
    simp [getStats, observeStatsAt, observeStats, writeStatsField, updateFn,
      hsne]
  · simp [getConfig, observeConfigAt, observeConfig, updateFn]
  · intro g
    simp [getConfig, observeConfigAt, observeConfig, writeConfigField,
      updateFn, hcne]

/-- Witness for the amended Claim C10 on `schedHeapEx`, reassigning
`consecutiveErrors` on the returned stats copy and `maxRetries` on the
returned config copy. -/
theorem c10_stats_config_copies_witness :
    observeStatsAt (getStats schedHeapEx).1 (getStats schedHeapEx).2 =
      observeStats schedHeapEx ∧
    observeStats (writeStatsField (getStats schedHeapEx).1
        (getStats schedHeapEx).2
        (fun o => { o with consecutiveErrors := 99 })) =
      observeStats schedHeapEx ∧
    observeConfig (writeConfigField (getConfig schedHeapEx).1
        (getConfig schedHeapEx).2
        (fun g => { g with maxRetries := 99 })) =
      observeConfig schedHeapEx := by
  have h := c10_stats_config_copies schedHeapEx (by decide) (by decide)
  exact ⟨h.1, h.2.1 _, h.2.2.2 _⟩
